import Mathlib

/-!
Verification of the frame-processing core of `video_processor.py`
(a Qt/OpenCV video display application).

The embedding models:
- frames as row-major lists of rows of pixels (BGR channel order, 8-bit
  channel values as `Nat`),
- the OpenCV primitives the code calls with their documented semantics
  (`cvtColor` BGR2GRAY / GRAY2BGR, `threshold` with `THRESH_BINARY`,
  `rectangle` with thickness 2),
- the Haar-cascade detectors (`detectMultiScale`) and the Canny operator
  as function parameters, since their pixel-level behaviour is external
  to this repository and no claim depends on it,
- `VideoProcessor` mutable state as a `ProcState` record, with each
  method a pure state transformer; the camera read result and the file
  dialog result are explicit inputs.
-/

/-- A color pixel in OpenCV BGR channel order (fields are the blue,
green and red 8-bit channel values). -/
structure Pix where
  b : Nat
  g : Nat
  r : Nat
deriving Repr, DecidableEq

/-- A 3-channel frame: row-major list of rows of BGR pixels. -/
abbrev ColorFrame := List (List Pix)

/-- A single-channel (luminance) frame. -/
abbrev GrayFrame := List (List Nat)

/-- A frame as emitted by `process_frame`: 3-channel, or single-channel
(the Canny edge-detection branch returns a single-channel image). -/
inductive Frame where
  | color : ColorFrame → Frame
  | gray : GrayFrame → Frame
deriving Repr, DecidableEq

/-- OpenCV `cvtColor(COLOR_BGR2GRAY)` on one 8-bit pixel: the fixed-point
luminance `(4899*R + 9617*G + 1868*B + 8192) >> 14` (the library's
rounded fixed-point form of `0.299 R + 0.587 G + 0.114 B`). -/
def bgr2grayPix (p : Pix) : Nat :=
  (4899 * p.r + 9617 * p.g + 1868 * p.b + 8192) / 16384

/-- OpenCV `cvtColor(COLOR_BGR2GRAY)` on a whole frame. -/
def bgr2gray (f : ColorFrame) : GrayFrame :=
  f.map (fun row => row.map bgr2grayPix)

/-- OpenCV `threshold(.., thresh, maxval, THRESH_BINARY)` on one pixel:
`maxval` when the source value is strictly greater than `thresh`,
otherwise `0`. -/
def threshBinaryPix (thresh maxval v : Nat) : Nat :=
  if thresh < v then maxval else 0

/-- OpenCV `threshold(.., thresh, maxval, THRESH_BINARY)` on a frame. -/
def cvThreshold (thresh maxval : Nat) (f : GrayFrame) : GrayFrame :=
  f.map (fun row => row.map (threshBinaryPix thresh maxval))

/-- OpenCV `cvtColor(COLOR_GRAY2BGR)`: replicate the single channel into
all three channels. -/
def gray2bgr (f : GrayFrame) : ColorFrame :=
  f.map (fun row => row.map (fun y => ⟨y, y, y⟩))

/-- An axis-aligned detection rectangle `(x, y, w, h)` as returned by
`detectMultiScale`. -/
structure Rect where
  x : Nat
  y : Nat
  w : Nat
  h : Nat
deriving Repr, DecidableEq

/-- Model of the pixel set painted by OpenCV `rectangle(img, (x,y),
(x+w,y+h), color, 2)`: the pixels within Chebyshev distance 1 of the
rectangle outline (a thickness-2 border), i.e. inside the outline
dilated by one pixel but not strictly interior to it. -/
def onBorder (rc : Rect) (cx cy : Nat) : Bool :=
  (decide (rc.x ≤ cx + 1) && decide (cx ≤ rc.x + rc.w + 1) &&
   decide (rc.y ≤ cy + 1) && decide (cy ≤ rc.y + rc.h + 1)) &&
  !(decide (rc.x + 1 ≤ cx) && decide (cx + 1 ≤ rc.x + rc.w) &&
    decide (rc.y + 1 ≤ cy) && decide (cy + 1 ≤ rc.y + rc.h))

/-- Paint one row of a rectangle border: `cx` is the column index of the
head of the remaining row, `cy` the row index. -/
def drawRectRow (rc : Rect) (c : Pix) (cy : Nat) : Nat → List Pix → List Pix
  | _, [] => []
  | cx, p :: ps =>
      (if onBorder rc cx cy then c else p) :: drawRectRow rc c cy (cx + 1) ps

/-- Paint a rectangle border on the rows starting at row index `cy`. -/
def drawRectRows (rc : Rect) (c : Pix) : Nat → ColorFrame → ColorFrame
  | _, [] => []
  | cy, row :: rows => drawRectRow rc c cy 0 row :: drawRectRows rc c (cy + 1) rows

/-- OpenCV `rectangle(img, (x,y), (x+w,y+h), color, 2)`: overwrite the
border pixels with `c`, keep every other pixel. -/
def drawRect (rc : Rect) (c : Pix) (f : ColorFrame) : ColorFrame :=
  drawRectRows rc c 0 f

/-- The `for (x, y, w, h) in regions: cv2.rectangle(frame, ...)` loop of
`process_frame`: draw every detected rectangle in order. -/
def drawRects (c : Pix) (rects : List Rect) (f : ColorFrame) : ColorFrame :=
  rects.foldl (fun acc rc => drawRect rc c acc) f

/-- The pixel of `f` at row `cy`, column `cx`, when both are in range. -/
def pixAt (f : ColorFrame) (cy cx : Nat) : Option Pix :=
  f[cy]?.bind (fun row => row[cx]?)

/-- The state of a `cv2.VideoCapture` handle: whether the device opened
successfully, and whether `release()` has been called. -/
structure CapHandle where
  opened : Bool
  released : Bool
deriving Repr, DecidableEq

/-- The mutable state of a `VideoProcessor` instance, together with the
activity of its `QTimer` (`timerActive`). `cap` is `none` before
`start_camera` ever runs, as in `__init__`. -/
structure ProcState where
  cap : Option CapHandle
  timerActive : Bool
  processing_enabled : Bool
  edge_detection_enabled : Bool
  gray_threshold_enabled : Bool
  face_detection_enabled : Bool
  eye_detection_enabled : Bool
  threshold : Nat
deriving Repr, DecidableEq

/-- `VideoProcessor.__init__`: no capture handle, timer not started,
processing disabled, all four mode flags cleared, threshold 127. -/
def initState : ProcState :=
  { cap := none
    timerActive := false
    processing_enabled := false
    edge_detection_enabled := false
    gray_threshold_enabled := false
    face_detection_enabled := false
    eye_detection_enabled := false
    threshold := 127 }

/-- `VideoProcessor.start_camera`: assign `cv2.VideoCapture(camera_id)`
(whose open success is the external input `openOk`), start the 30 ms
timer, and clear `processing_enabled`. The method performs no open
check and surfaces no message; the second component is the surfaced
error, always `none`. -/
def start_camera (openOk : Bool) (s : ProcState) : ProcState × Option String :=
  ({ s with cap := some { opened := openOk, released := false }
            timerActive := true
            processing_enabled := false }, none)

/-- `VideoProcessor.stop_camera`: stop the timer, and release the
capture handle when one exists (`if self.cap: self.cap.release()`). -/
def stop_camera (s : ProcState) : ProcState :=
  { s with timerActive := false
           cap := s.cap.map (fun c => { c with released := true }) }

/-- `VideoProcessor.process_frame`. The Canny operator and the two
cascade detectors are external library calls, passed as function
parameters: `cannyOp low high gray`, `detectFaces gray` (frontal-face
cascade, scale factor 1.1, minNeighbors 4) and `detectEyes gray` (eye
cascade, scale factor 1.1, minNeighbors 5). Rectangle colors are the
code's BGR tuples: faces `(255,0,0)`, eyes `(0,255,0)`. -/
def process_frame (detectFaces detectEyes : GrayFrame → List Rect)
    (cannyOp : Nat → Nat → GrayFrame → GrayFrame)
    (s : ProcState) (frame : ColorFrame) : Frame :=
  if s.edge_detection_enabled then
    Frame.gray (cannyOp 100 200 (bgr2gray frame))
  else if s.gray_threshold_enabled then
    Frame.color (gray2bgr (cvThreshold s.threshold 255 (bgr2gray frame)))
  else if s.face_detection_enabled then
    Frame.color (drawRects ⟨255, 0, 0⟩ (detectFaces (bgr2gray frame)) frame)
  else if s.eye_detection_enabled then
    Frame.color (drawRects ⟨0, 255, 0⟩ (detectEyes (bgr2gray frame)) frame)
  else
    Frame.color frame

/-- `VideoProcessor.update_frame` (one timer tick): `readResult` is the
outcome of `self.cap.read()` (`none` when `ret` is false). When a frame
was read, process it if `processing_enabled` and emit it on
`frame_update_signal` (the second component); otherwise do nothing. -/
def update_frame (detectFaces detectEyes : GrayFrame → List Rect)
    (cannyOp : Nat → Nat → GrayFrame → GrayFrame)
    (s : ProcState) (readResult : Option ColorFrame) : ProcState × Option Frame :=
  match readResult with
  | none => (s, none)
  | some frame =>
      if s.processing_enabled then
        (s, some (process_frame detectFaces detectEyes cannyOp s frame))
      else
        (s, some (Frame.color frame))

/-- A timer tick only runs `update_frame` while the `QTimer` is active:
the frame emitted by one tick, or `none` when the timer is stopped. -/
def tickEmits (detectFaces detectEyes : GrayFrame → List Rect)
    (cannyOp : Nat → Nat → GrayFrame → GrayFrame)
    (s : ProcState) (readResult : Option ColorFrame) : Option Frame :=
  if s.timerActive then
    (update_frame detectFaces detectEyes cannyOp s readResult).2
  else
    none

/-- `MainWindow.enable_edge_detection`. -/
def enable_edge_detection (s : ProcState) : ProcState :=
  { s with processing_enabled := true
           edge_detection_enabled := true
           gray_threshold_enabled := false
           face_detection_enabled := false
           eye_detection_enabled := false }

/-- `MainWindow.enable_gray_threshold`. -/
def enable_gray_threshold (s : ProcState) : ProcState :=
  { s with processing_enabled := true
           edge_detection_enabled := false
           gray_threshold_enabled := true
           face_detection_enabled := false
           eye_detection_enabled := false }

/-- `MainWindow.enable_face_detection`. -/
def enable_face_detection (s : ProcState) : ProcState :=
  { s with processing_enabled := true
           edge_detection_enabled := false
           gray_threshold_enabled := false
           face_detection_enabled := true
           eye_detection_enabled := false }

/-- `MainWindow.enable_eye_detection`. -/
def enable_eye_detection (s : ProcState) : ProcState :=
  { s with processing_enabled := true
           edge_detection_enabled := false
           gray_threshold_enabled := false
           face_detection_enabled := false
           eye_detection_enabled := true }

/-- The four selectable processing modes. -/
inductive Mode where
  | edge
  | grayT
  | face
  | eye
deriving Repr, DecidableEq

/-- Dispatch of the four `MainWindow.enable_*` slots by mode. -/
def enableMode : Mode → ProcState → ProcState
  | .edge => enable_edge_detection
  | .grayT => enable_gray_threshold
  | .face => enable_face_detection
  | .eye => enable_eye_detection

/-- The mode-selection flag of `ProcState` corresponding to a mode. -/
def modeFlag : Mode → ProcState → Bool
  | .edge => fun s => s.edge_detection_enabled
  | .grayT => fun s => s.gray_threshold_enabled
  | .face => fun s => s.face_detection_enabled
  | .eye => fun s => s.eye_detection_enabled

/-- The first mode flag that is set, in the textual order of the
`if/elif` chain of `process_frame`: edge, then grayscale threshold,
then face detection, then eye detection. -/
def firstMode (s : ProcState) : Option Mode :=
  if s.edge_detection_enabled then some .edge
  else if s.gray_threshold_enabled then some .grayT
  else if s.face_detection_enabled then some .face
  else if s.eye_detection_enabled then some .eye
  else none

/-- The single filter a mode applies, independent of any flag. -/
def applyMode (detectFaces detectEyes : GrayFrame → List Rect)
    (cannyOp : Nat → Nat → GrayFrame → GrayFrame) (thr : Nat) :
    Option Mode → ColorFrame → Frame
  | some .edge, frame => Frame.gray (cannyOp 100 200 (bgr2gray frame))
  | some .grayT, frame =>
      Frame.color (gray2bgr (cvThreshold thr 255 (bgr2gray frame)))
  | some .face, frame =>
      Frame.color (drawRects ⟨255, 0, 0⟩ (detectFaces (bgr2gray frame)) frame)
  | some .eye, frame =>
      Frame.color (drawRects ⟨0, 255, 0⟩ (detectEyes (bgr2gray frame)) frame)
  | none, frame => Frame.color frame

/-- Which `cvtColor` call `MainWindow.update_label` applies to the
received frame before display. -/
inductive DisplayConv where
  | grayToBGR
  | bgrToRGB
deriving Repr, DecidableEq

/-- `MainWindow.update_label` branches on the processor's
`edge_detection_enabled` flag: `COLOR_GRAY2BGR` when it is set,
`COLOR_BGR2RGB` otherwise. -/
def update_label_conv (s : ProcState) : DisplayConv :=
  if s.edge_detection_enabled then .grayToBGR else .bgrToRGB

/-- Outcome of `MainWindow.save_frame`. -/
inductive SaveOutcome where
  | warned
  | canceled
  | saved (filename : String)
deriving Repr, DecidableEq

/-- `MainWindow.save_frame`: when the label has no pixmap, show the
warning box and return without writing; otherwise ask the dialog for a
filename (`dialogResult`, `none` when the user cancels) and save there.
The processor state is untouched; the final component lists the files
written. -/
def save_frame (s : ProcState) (labelPixmap : Option Frame)
    (dialogResult : Option String) : ProcState × SaveOutcome × List String :=
  match labelPixmap with
  | none => (s, .warned, [])
  | some _ =>
      match dialogResult with
      | none => (s, .canceled, [])
      | some fn => (s, .saved fn, [fn])

/-! Concrete inputs used by witnesses and counterexamples. -/

/-- A detector that finds no regions. -/
def noDetect : GrayFrame → List Rect := fun _ => []

/-- A concrete stand-in for the external Canny operator. -/
def idCanny : Nat → Nat → GrayFrame → GrayFrame := fun _ _ g => g

/-- A 1-by-1 frame with pixel (200, 200, 200). -/
def frame0 : ColorFrame := [[⟨200, 200, 200⟩]]

/-- The 4-by-4 all-(200,200,200) frame of the spec scenario. -/
def frame4 : ColorFrame := List.replicate 4 (List.replicate 4 ⟨200, 200, 200⟩)

/-- Claim C2: with no filter selected (all four mode flags false),
processing is the identity: `process_frame` returns the input frame
unchanged, and a tick that reads a frame emits exactly the input frame. -/
theorem c2_mode_none_identity (detectFaces detectEyes : GrayFrame → List Rect)
    (cannyOp : Nat → Nat → GrayFrame → GrayFrame) (s : ProcState) (frame : ColorFrame)
    (he : s.edge_detection_enabled = false) (hg : s.gray_threshold_enabled = false)
    (hf : s.face_detection_enabled = false) (hy : s.eye_detection_enabled = false) :
    process_frame detectFaces detectEyes cannyOp s frame = Frame.color frame ∧
    update_frame detectFaces detectEyes cannyOp s (some frame) =
      (s, some (Frame.color frame)) := by
  have hp : process_frame detectFaces detectEyes cannyOp s frame = Frame.color frame := by
    simp [process_frame, he, hg, hf, hy]
  refine ⟨hp, ?_⟩
  by_cases hpe : s.processing_enabled <;> simp [update_frame, hpe, hp]

/-- Witness for C2 at the initial state and a concrete frame. -/
theorem c2_mode_none_identity_witness :
    initState.edge_detection_enabled = false ∧
    initState.gray_threshold_enabled = false ∧
    initState.face_detection_enabled = false ∧
    initState.eye_detection_enabled = false ∧
    (process_frame noDetect noDetect idCanny initState frame0 = Frame.color frame0 ∧
     update_frame noDetect noDetect idCanny initState (some frame0) =
       (initState, some (Frame.color frame0))) :=
  ⟨rfl, rfl, rfl, rfl,
   c2_mode_none_identity noDetect noDetect idCanny initState frame0 rfl rfl rfl rfl⟩

/-- Claim C3: mode selection is mutually exclusive: after enabling mode A
and then mode B (A distinct from B), a mode flag is set exactly when it
is B's flag, from any state. -/
theorem c3_modes_mutually_exclusive (A B M : Mode) (s : ProcState) (hAB : A ≠ B) :
    modeFlag M (enableMode B (enableMode A s)) = true ↔ M = B := by
  cases A <;> cases B <;> cases M <;>
    simp_all [enableMode, modeFlag, enable_edge_detection, enable_gray_threshold,
      enable_face_detection, enable_eye_detection]

/-- Witness for C3 at a concrete pair of distinct modes. -/
theorem c3_modes_mutually_exclusive_witness :
    Mode.edge ≠ Mode.grayT ∧
    (modeFlag Mode.grayT (enableMode Mode.grayT (enableMode Mode.edge initState)) = true ↔
      Mode.grayT = Mode.grayT) :=
  ⟨by decide, c3_modes_mutually_exclusive Mode.edge Mode.grayT Mode.grayT initState (by decide)⟩

/-- Claim C5: stopping capture is total and idempotent: on the
never-started initial state it is a no-op, stopping twice equals
stopping once, and after stopping no tick emits a frame. -/
theorem c5_stop_camera_idempotent (detectFaces detectEyes : GrayFrame → List Rect)
    (cannyOp : Nat → Nat → GrayFrame → GrayFrame)
    (s : ProcState) (readResult : Option ColorFrame) :
    stop_camera initState = initState ∧
    stop_camera (stop_camera s) = stop_camera s ∧
    tickEmits detectFaces detectEyes cannyOp (stop_camera s) readResult = none := by
  refine ⟨rfl, ?_, ?_⟩
  · cases h : s.cap <;> simp [stop_camera, h]
  · simp [tickEmits, stop_camera]

/-- Claim C6: a tick whose camera read yields no frame leaves the state
(including the running timer) unchanged and emits nothing. -/
theorem c6_empty_read_skips_tick (detectFaces detectEyes : GrayFrame → List Rect)
    (cannyOp : Nat → Nat → GrayFrame → GrayFrame) (s : ProcState) :
    update_frame detectFaces detectEyes cannyOp s none = (s, none) ∧
    (update_frame detectFaces detectEyes cannyOp s none).1.timerActive = s.timerActive :=
  ⟨rfl, rfl⟩

/-- Claim C7 fails on the code: when the capture device fails to open,
`start_camera` surfaces no error and still starts the periodic timer,
so the failure is silent and the tick cycle begins anyway. -/
theorem c7_start_camera_no_open_check :
    (start_camera false initState).2 = none ∧
    (start_camera false initState).1.timerActive = true ∧
    (start_camera false initState).1.cap = some { opened := false, released := false } :=
  ⟨rfl, rfl, rfl⟩

/-- Claim C8: invoking save with no frame ever displayed (label pixmap
absent) produces the warning, writes no file, and leaves the processor
state untouched. -/
theorem c8_save_without_frame_warns (s : ProcState) (dialogResult : Option String) :
    save_frame s none dialogResult = (s, SaveOutcome.warned, []) :=
  rfl

/-- Claim C9: `process_frame` applies exactly the filter of the first
enabled flag in the fixed order edge, grayscale threshold, face, eye;
every other enabled flag is ignored. -/
theorem c9_filter_priority (detectFaces detectEyes : GrayFrame → List Rect)
    (cannyOp : Nat → Nat → GrayFrame → GrayFrame) (s : ProcState) (frame : ColorFrame) :
    process_frame detectFaces detectEyes cannyOp s frame =
      applyMode detectFaces detectEyes cannyOp s.threshold (firstMode s) frame := by
  by_cases he : s.edge_detection_enabled <;>
    by_cases hg : s.gray_threshold_enabled <;>
    by_cases hf : s.face_detection_enabled <;>
    by_cases hy : s.eye_detection_enabled <;>
    simp [process_frame, firstMode, applyMode, he, hg, hf, hy]

/-- Claim C10: `start_camera` clears `processing_enabled` but leaves the
four mode flags (and the threshold) unchanged, so the next tick emits
the raw frame with no filter applied, while `update_label` still
branches on the stale `edge_detection_enabled` flag. -/
theorem c10_start_camera_stale_flags (openOk : Bool)
    (detectFaces detectEyes : GrayFrame → List Rect)
    (cannyOp : Nat → Nat → GrayFrame → GrayFrame)
    (s : ProcState) (frame : ColorFrame) :
    (start_camera openOk s).1.processing_enabled = false ∧
    (start_camera openOk s).1.edge_detection_enabled = s.edge_detection_enabled ∧
    (start_camera openOk s).1.gray_threshold_enabled = s.gray_threshold_enabled ∧
    (start_camera openOk s).1.face_detection_enabled = s.face_detection_enabled ∧
    (start_camera openOk s).1.eye_detection_enabled = s.eye_detection_enabled ∧
    (start_camera openOk s).1.threshold = s.threshold ∧
    update_frame detectFaces detectEyes cannyOp (start_camera openOk s).1 (some frame) =
      ((start_camera openOk s).1, some (Frame.color frame)) ∧
    update_label_conv (start_camera openOk s).1 =
      (if s.edge_detection_enabled then DisplayConv.grayToBGR else DisplayConv.bgrToRGB) := by
  refine ⟨rfl, rfl, rfl, rfl, rfl, rfl, ?_, rfl⟩
  simp [update_frame, start_camera]

/-- Pointwise form of the GrayThreshold pipeline: luminance strictly
greater than the threshold becomes 255 in all three channels, luminance
less than or equal to it becomes 0. -/
theorem grayThreshold_pointwise (T : Nat) (frame : ColorFrame) :
    gray2bgr (cvThreshold T 255 (bgr2gray frame)) =
      frame.map (fun row => row.map (fun p =>
        if T < bgr2grayPix p then ⟨255, 255, 255⟩ else ⟨0, 0, 0⟩)) := by
  simp only [gray2bgr, cvThreshold, bgr2gray, List.map_map]
  refine List.map_congr_left (fun row _ => ?_)
  simp only [Function.comp, List.map_map]
  refine List.map_congr_left (fun p _ => ?_)
  simp only [Function.comp, threshBinaryPix]
  split <;> rfl

/-- Counterexample to claim C1 as stated: `cv2.threshold` with
`THRESH_BINARY` is strict, so a pixel whose luminance equals the
threshold (127 here) is mapped to 0, not to the claimed 255; likewise
an all-255-luminance frame at threshold 255 comes out all-zero, not
all-max. -/
theorem c1_ge_mapping_counterexample :
    bgr2grayPix ⟨127, 127, 127⟩ = 127 ∧
    (enable_gray_threshold initState).threshold = 127 ∧
    process_frame noDetect noDetect idCanny (enable_gray_threshold initState)
      [[⟨127, 127, 127⟩]] = Frame.color [[⟨0, 0, 0⟩]] ∧
    bgr2grayPix ⟨255, 255, 255⟩ = 255 ∧
    process_frame noDetect noDetect idCanny
      { enable_gray_threshold initState with threshold := 255 }
      [[⟨255, 255, 255⟩]] = Frame.color [[⟨0, 0, 0⟩]] := by
  refine ⟨by decide, rfl, ?_, by decide, ?_⟩ <;> decide

/-- Claim C1 (amended): GrayThreshold converts to single-channel
luminance, maps every pixel with luminance strictly greater than T to
255 and every pixel with luminance less than or equal to T to 0, and
re-expands to 3 equal channels; an all-zero-luminance input yields an
all-zero output for every T, and an all-255-luminance input yields an
all-max output whenever T is strictly below 255. -/
theorem c1_gray_threshold_binary (detectFaces detectEyes : GrayFrame → List Rect)
    (cannyOp : Nat → Nat → GrayFrame → GrayFrame) (s : ProcState) (frame : ColorFrame)
    (he : s.edge_detection_enabled = false) (hg : s.gray_threshold_enabled = true) :
    process_frame detectFaces detectEyes cannyOp s frame =
      Frame.color (frame.map (fun row => row.map (fun p =>
        if s.threshold < bgr2grayPix p then ⟨255, 255, 255⟩ else ⟨0, 0, 0⟩))) ∧
    ((∀ row ∈ frame, ∀ p ∈ row, bgr2grayPix p = 0) →
      process_frame detectFaces detectEyes cannyOp s frame =
        Frame.color (frame.map (fun row => row.map (fun _ => ⟨0, 0, 0⟩)))) ∧
    (s.threshold < 255 → (∀ row ∈ frame, ∀ p ∈ row, bgr2grayPix p = 255) →
      process_frame detectFaces detectEyes cannyOp s frame =
        Frame.color (frame.map (fun row => row.map (fun _ => ⟨255, 255, 255⟩)))) := by
  have hmain : process_frame detectFaces detectEyes cannyOp s frame =
      Frame.color (frame.map (fun row => row.map (fun p =>
        if s.threshold < bgr2grayPix p then ⟨255, 255, 255⟩ else ⟨0, 0, 0⟩))) := by
    simp [process_frame, he, hg, grayThreshold_pointwise]
  refine ⟨hmain, ?_, ?_⟩
  · intro hz
    rw [hmain]
    congr 1
    refine List.map_congr_left (fun row hrow => ?_)
    refine List.map_congr_left (fun p hp => ?_)
    simp [hz row hrow p hp]
  · intro hT h255
    rw [hmain]
    congr 1
    refine List.map_congr_left (fun row hrow => ?_)
    refine List.map_congr_left (fun p hp => ?_)
    simp [h255 row hrow p hp, hT]

/-- Witness for the amended C1 at the spec scenario: a 4-by-4 frame of
(200,200,200) pixels with threshold 127 comes out all (255,255,255). -/
theorem c1_gray_threshold_binary_witness :
    (enable_gray_threshold initState).edge_detection_enabled = false ∧
    (enable_gray_threshold initState).gray_threshold_enabled = true ∧
    process_frame noDetect noDetect idCanny (enable_gray_threshold initState) frame4 =
      Frame.color (frame4.map (fun row => row.map (fun p =>
        if (enable_gray_threshold initState).threshold < bgr2grayPix p
        then ⟨255, 255, 255⟩ else ⟨0, 0, 0⟩))) ∧
    frame4.map (fun row => row.map (fun p =>
        if (enable_gray_threshold initState).threshold < bgr2grayPix p
        then (⟨255, 255, 255⟩ : Pix) else ⟨0, 0, 0⟩)) =
      List.replicate 4 (List.replicate 4 ⟨255, 255, 255⟩) :=
  ⟨rfl, rfl,
   (c1_gray_threshold_binary noDetect noDetect idCanny
     (enable_gray_threshold initState) frame4 rfl rfl).1,
   by decide⟩

/-- Painting one row only rewrites entries whose column index is on the
border. -/
theorem drawRectRow_get (rc : Rect) (c : Pix) (cy : Nat) (ps : List Pix) :
    ∀ (cx0 k : Nat),
      (drawRectRow rc c cy cx0 ps)[k]? =
        ps[k]?.map (fun p => if onBorder rc (cx0 + k) cy then c else p) := by
  induction ps with
  | nil => intro cx0 k; simp [drawRectRow]
  | cons p ps ih =>
      intro cx0 k
      cases k with
      | zero => simp [drawRectRow]
      | succ k =>
          have h : cx0 + 1 + k = cx0 + (k + 1) := by omega
          simp [drawRectRow, ih (cx0 + 1) k, h]

/-- Painting the rows only rewrites rows through `drawRectRow` at their
own row index. -/
theorem drawRectRows_get (rc : Rect) (c : Pix) (rows : ColorFrame) :
    ∀ (cy0 k : Nat),
      (drawRectRows rc c cy0 rows)[k]? =
        rows[k]?.map (fun row => drawRectRow rc c (cy0 + k) 0 row) := by
  induction rows with
  | nil => intro cy0 k; simp [drawRectRows]
  | cons row rows ih =>
      intro cy0 k
      cases k with
      | zero => simp [drawRectRows]
      | succ k =>
          have h : cy0 + 1 + k = cy0 + (k + 1) := by omega
          simp [drawRectRows, ih (cy0 + 1) k, h]

/-- Pixel-level description of `drawRect`: the pixel at (cy, cx) is the
rectangle color exactly on the border and the original pixel elsewhere. -/
theorem pixAt_drawRect (rc : Rect) (c : Pix) (f : ColorFrame) (cy cx : Nat) :
    pixAt (drawRect rc c f) cy cx =
      (pixAt f cy cx).map (fun p => if onBorder rc cx cy then c else p) := by
  simp only [pixAt, drawRect, drawRectRows_get, Nat.zero_add]
  cases h : f[cy]? with
  | none => rfl
  | some row => simp [drawRectRow_get, Nat.zero_add]

/-- A pixel off the border of a rectangle is untouched by drawing it. -/
theorem pixAt_drawRect_offBorder (rc : Rect) (c : Pix) (f : ColorFrame) (cy cx : Nat)
    (h : onBorder rc cx cy = false) :
    pixAt (drawRect rc c f) cy cx = pixAt f cy cx := by
  rw [pixAt_drawRect]
  cases pixAt f cy cx <;> simp [h]

/-- A pixel off the borders of all drawn rectangles is untouched by the
drawing loop. -/
theorem pixAt_drawRects_offBorder (c : Pix) (cy cx : Nat) :
    ∀ (rects : List Rect) (f : ColorFrame),
      (∀ rc ∈ rects, onBorder rc cx cy = false) →
      pixAt (drawRects c rects f) cy cx = pixAt f cy cx := by
  intro rects
  induction rects with
  | nil => intro f _; rfl
  | cons rc rs ih =>
      intro f h
      have h1 : onBorder rc cx cy = false := h rc (List.mem_cons_self rc rs)
      have h2 : ∀ r ∈ rs, onBorder r cx cy = false :=
        fun r hr => h r (List.mem_cons_of_mem rc hr)
      calc pixAt (drawRects c (rc :: rs) f) cy cx
          = pixAt (drawRects c rs (drawRect rc c f)) cy cx := rfl
        _ = pixAt (drawRect rc c f) cy cx := ih (drawRect rc c f) h2
        _ = pixAt f cy cx := pixAt_drawRect_offBorder rc c f cy cx h1

/-- Claim C4: when the face (respectively eye) detector returns zero
regions, FaceDetection (respectively EyeDetection) processing returns
the frame unchanged; and the rectangle-drawing loop never alters a
pixel lying outside every drawn border. -/
theorem c4_detection_zero_regions (detectFaces detectEyes : GrayFrame → List Rect)
    (cannyOp : Nat → Nat → GrayFrame → GrayFrame) (s : ProcState) (frame : ColorFrame)
    (c : Pix) (rects : List Rect) (cy cx : Nat)
    (he : s.edge_detection_enabled = false) (hg : s.gray_threshold_enabled = false)
    (hdet : (s.face_detection_enabled = true ∧ detectFaces (bgr2gray frame) = []) ∨
            (s.face_detection_enabled = false ∧ s.eye_detection_enabled = true ∧
             detectEyes (bgr2gray frame) = []))
    (hout : ∀ rc ∈ rects, onBorder rc cx cy = false) :
    process_frame detectFaces detectEyes cannyOp s frame = Frame.color frame ∧
    pixAt (drawRects c rects frame) cy cx = pixAt frame cy cx := by
  refine ⟨?_, pixAt_drawRects_offBorder c cy cx rects frame hout⟩
  rcases hdet with ⟨hf, hd⟩ | ⟨hf, hy, hd⟩
  · simp [process_frame, he, hg, hf, hd, drawRects]
  · simp [process_frame, he, hg, hf, hy, hd, drawRects]

/-- Witness for C4: face-detection state, a detector returning no
regions on the 4-by-4 scenario frame, and the pixel (3,3) off the
border of a drawn rectangle. -/
theorem c4_detection_zero_regions_witness :
    (enable_face_detection initState).edge_detection_enabled = false ∧
    (enable_face_detection initState).gray_threshold_enabled = false ∧
    ((enable_face_detection initState).face_detection_enabled = true ∧
      noDetect (bgr2gray frame4) = []) ∧
    (∀ rc ∈ [Rect.mk 0 0 1 1], onBorder rc 3 3 = false) ∧
    (process_frame noDetect noDetect idCanny (enable_face_detection initState) frame4 =
        Frame.color frame4 ∧
      pixAt (drawRects ⟨255, 0, 0⟩ [Rect.mk 0 0 1 1] frame4) 3 3 = pixAt frame4 3 3) :=
  ⟨rfl, rfl, ⟨rfl, rfl⟩, by decide,
   c4_detection_zero_regions noDetect noDetect idCanny (enable_face_detection initState)
     frame4 ⟨255, 0, 0⟩ [Rect.mk 0 0 1 1] 3 3 rfl rfl (Or.inl ⟨rfl, rfl⟩) (by decide)⟩
